import Mathlib

/-!
Shallow embedding of the ticket state-synchronization and role-scoped view
engine of the mobile ticketing client (src/hooks/useTickets.ts and
src/pages/TicketsPage.tsx).

Modelling conventions:
* timestamps (JS `Date` values / ISO-8601 strings) are `Nat` instants; the
  ISO-string round-trips performed at the gateway boundary are the identity
  under this model;
* JS `undefined`/`null` optional fields are `Option`;
* a TS updates object over optional Ticket fields distinguishes "key absent" from "key
  present with value `undefined`/`null`", hence doubly-optional fields
  `Option (Option _)`;
* an async operation that either fulfills or rejects is a function returning
  `Except String _` together with the new local state;
* the Remote Data Gateway (src/lib/dbhelper, not among the sources) is an
  opaque collaborator: its outcome is passed in as an `Except` argument, and
  where a claim needs the canonical record it returns, the gateway behaviour
  is modelled from the spec (see `applyUpdates`).
-/

namespace MobileTicketing

/-- The Ticket entity (src/models/Ticket, as used by useTickets.ts and
TicketsPage.tsx): statuses and priorities are strings, timestamps instants,
optional fields `Option`. -/
structure Ticket where
  id : String
  title : String
  description : String
  location : String
  priority : String
  status : String
  createdBy : String
  assignedTo : Option String
  createdAt : Nat
  updatedAt : Nat
  assignedAt : Option Nat
  resolvedAt : Option Nat
  verifiedAt : Option Nat
  verifiedBy : Option String
  dueDate : Option Nat
  deriving Repr, DecidableEq

/-- A TS updates object over optional Ticket fields. The outer `Option` is key presence;
for the timestamp and assignee fields the inner `Option` is the value, which
may itself be `undefined`/`null` (e.g. `assignTicket` passes
`assignedAt: undefined` explicitly). -/
structure TicketUpdates where
  title : Option String := none
  description : Option String := none
  location : Option String := none
  priority : Option String := none
  status : Option String := none
  assignedTo : Option (Option String) := none
  assignedAt : Option (Option Nat) := none
  resolvedAt : Option (Option Nat) := none
  verifiedAt : Option (Option Nat) := none
  verifiedBy : Option String := none
  dueDate : Option (Option Nat) := none
  deriving Repr, DecidableEq

/-- JS truthiness of a `string | null | undefined` value: `null`, `undefined`
and the empty string are falsy. -/
def strTruthy : Option String → Bool
  | none => false
  | some v => !(v == "")

/-- JS falsiness of a possibly-absent `Date | undefined` field of an updates
object: the key being absent, or present with value `undefined`, is falsy; a
present `Date` object is always truthy. -/
def dateFalsy (o : Option (Option Nat)) : Prop := o = none ∨ o = some none

instance (o : Option (Option Nat)) : Decidable (dateFalsy o) := by
  unfold dateFalsy; infer_instance

/-! ## Ticket Store operations (src/hooks/useTickets.ts) -/

/-- Message of the `TypeError` thrown when `loadTickets` maps over the
`undefined` data left behind by the swallowed inner gateway error
(useTickets.ts lines 59-71). -/
def loadCrashMessage : String := "TypeError: cannot read properties of undefined"

/-- The slice of the hook state that `loadTickets` touches. -/
structure LoadState where
  tickets : List Ticket
  loading : Bool
  error : Option String
  deriving Repr, DecidableEq

/-- Operation `loadTickets` (useTickets.ts lines 48-107), given the gateway outcome of
`db.getTicketsWithRelations`. On success the collection is replaced wholesale
by the transformed data (date parsing is the identity here). On gateway
failure the inner catch only logs; `data` is then `undefined` and `data.map`
throws a `TypeError`, which the outer catch absorbs by setting the error
state; the finally clause clears `loading`; the promise always fulfills. -/
def loadTickets (st : LoadState) (gw : Except String (List Ticket)) :
    LoadState × Except String Unit :=
  match gw with
  | Except.ok data =>
      ({ tickets := data, loading := false, error := none }, Except.ok ())
  | Except.error _ =>
      ({ tickets := st.tickets, loading := false, error := some loadCrashMessage },
       Except.ok ())

/-- Operation `createTicket` (useTickets.ts lines 109-184), given the gateway outcome of
`db.createTicket` (already transformed; `t` is the canonical created record)
and the outcome of `notifyTicketCreated`. The inner catch rethrows the
gateway error and the outer catch rethrows it again, so the collection is
untouched on failure; on success the record is prepended and a notification
failure is caught and only logged. -/
def createTicket (tickets : List Ticket) (gw : Except String Ticket)
    (notifyOutcome : Except String Unit) : List Ticket × Except String Ticket :=
  match gw with
  | Except.error e => (tickets, Except.error e)
  | Except.ok t =>
      match notifyOutcome with
      | _ => (t :: tickets, Except.ok t)

/-- The `dbUpdates` object computed by `updateTicket` (useTickets.ts lines
192-214): a copy of `updates` (the `toISOString` conversions are the identity
here) with `assignedAt`/`resolvedAt`/`verifiedAt` auto-stamped to `now` when
the corresponding status is requested and the caller-supplied timestamp is
falsy; the `verified` case additionally stamps `verifiedBy` with the acting
user id. -/
def computeDbUpdates (u : TicketUpdates) (userId : String) (now : Nat) :
    TicketUpdates :=
  let d1 := if u.status = some "assigned" ∧ dateFalsy u.assignedAt then
      { u with assignedAt := some (some now) } else u
  let d2 := if u.status = some "resolved" ∧ dateFalsy u.resolvedAt then
      { d1 with resolvedAt := some (some now) } else d1
  if u.status = some "verified" ∧ dateFalsy u.verifiedAt then
    { d2 with verifiedAt := some (some now), verifiedBy := some userId } else d2

/-- Modelled from the spec: the Remote Data Gateway operation
`updateTicket(id, fields) -> RawTicket` (src/lib/dbhelper is not among the
sources). Per the spec it applies the supplied fields to the stored record
and "returns the full updated canonical record", each mutation bumping
`updatedAt`; a key present with value `undefined`/`null` clears the field
(spec: assigning null "clears assignment ... clearing assignedAt"). -/
def applyUpdates (t : Ticket) (u : TicketUpdates) (now : Nat) : Ticket :=
  { t with
    title := u.title.getD t.title
    description := u.description.getD t.description
    location := u.location.getD t.location
    priority := u.priority.getD t.priority
    status := u.status.getD t.status
    assignedTo := u.assignedTo.getD t.assignedTo
    assignedAt := u.assignedAt.getD t.assignedAt
    resolvedAt := u.resolvedAt.getD t.resolvedAt
    verifiedAt := u.verifiedAt.getD t.verifiedAt
    verifiedBy := match u.verifiedBy with
      | none => t.verifiedBy
      | some v => some v
    dueDate := u.dueDate.getD t.dueDate
    updatedAt := now }

/-- The local-collection and outcome part of `updateTicket` (useTickets.ts
lines 216-264), given the gateway outcome of `db.updateTicket` (`r` is the
transformed canonical record) and the outcome of the notification calls. On
failure the inner catch rethrows and the outer catch rethrows again; on
success the matching record is replaced in place by id and a notification
failure is caught and only logged. -/
def updateTicket (tickets : List Ticket) (ticketId : String)
    (gw : Except String Ticket) (notifyOutcome : Except String Unit) :
    List Ticket × Except String Ticket :=
  match gw with
  | Except.error e => (tickets, Except.error e)
  | Except.ok r =>
      match notifyOutcome with
      | _ => (tickets.map fun t => if t.id = ticketId then r else t, Except.ok r)

/-- Operation `deleteTicket` (useTickets.ts lines 284-331), given the gateway outcome of
`db.deleteTicket`. The inner catch only logs the gateway error and execution
falls through: the record is removed from the local collection and the
success toast is shown, so the promise fulfills regardless of the gateway
outcome (the outer catch is unreachable on this path). -/
def deleteTicket (tickets : List Ticket) (ticketId : String)
    (gw : Except String Unit) : List Ticket × Except String Unit :=
  match gw with
  | _ => (tickets.filter fun t => !(t.id == ticketId), Except.ok ())

/-- The updates object built by `assignTicket` (useTickets.ts lines 333-341):
`assignedTo` is passed through, `status` is `"assigned"` when the assignee is
truthy and `"open"` otherwise, and `assignedAt` is `now` when truthy and
`undefined` otherwise. -/
def assignTicketUpdates (assignedTo : Option String) (now : Nat) : TicketUpdates :=
  { assignedTo := some assignedTo
    status := some (if strTruthy assignedTo then "assigned" else "open")
    assignedAt := some (if strTruthy assignedTo then some now else none) }

/-- Helper `getOverdueTickets` (useTickets.ts lines 544-554): tickets whose `dueDate`
is set (a `Date` object is truthy), strictly before `now`, with status not in
`["resolved", "verified", "closed"]`. -/
def getOverdueTickets (tickets : List Ticket) (now : Nat) : List Ticket :=
  tickets.filter fun t =>
    (match t.dueDate with
     | none => false
     | some d => decide (d < now)) &&
    !(["resolved", "verified", "closed"].contains t.status)

/-! ## Role-Scoped View Builder (src/pages/TicketsPage.tsx) -/

/-- Predicate `canViewAllTickets` (TicketsPage.tsx lines 46-49): `profile?.role` is
admin or supervisor. -/
def canViewAllTickets (role : Option String) : Bool :=
  role == some "admin" || role == some "supervisor"

/-- The visibility step of `getFilteredTickets` (TicketsPage.tsx lines
105-118), also recomputed identically by `getTicketCounts` (lines 171-173):
admin and supervisors see all tickets; everyone else only the tickets they
created or are assigned to. `userId` is `user?.id`; the JS `===` comparisons
against a possibly-`undefined` id are `Option` equalities. -/
def visibleTickets (tickets : List Ticket) (userId : Option String)
    (role : Option String) : List Ticket :=
  if canViewAllTickets role then tickets
  else tickets.filter fun t =>
    some t.createdBy == userId || t.assignedTo == userId

/-- The search / status / priority / assignment filter state of TicketsPage. -/
structure Filters where
  searchTerm : String
  statusFilter : String
  priorityFilter : String
  assignedFilter : String
  deriving Repr, DecidableEq

/-- Whether `needle` occurs as a contiguous run of characters at the head of `hay`. -/
def charsPrefixOf : List Char → List Char → Bool
  | [], _ => true
  | _ :: _, [] => false
  | c :: cs, h :: hs => c == h && charsPrefixOf cs hs

/-- Whether `needle` occurs as a contiguous run of characters somewhere in `hay`. -/
def charsContain (hay needle : List Char) : Bool :=
  match hay with
  | [] => needle.isEmpty
  | _ :: rest => charsPrefixOf needle hay || charsContain rest needle

/-- JS `hay.toLowerCase().includes(needle.toLowerCase())`. -/
def containsIgnoreCase (hay needle : String) : Bool :=
  charsContain hay.toLower.toList needle.toLower.toList

/-- The filter predicate of `getFilteredTickets` (TicketsPage.tsx lines
120-136): case-insensitive search over title/description/location, and
status, priority and assignment filters with an `"all"` wildcard and an
`"unassigned"` special value. -/
def matchesFilters (f : Filters) (t : Ticket) : Bool :=
  let matchesSearch := containsIgnoreCase t.title f.searchTerm ||
    containsIgnoreCase t.description f.searchTerm ||
    containsIgnoreCase t.location f.searchTerm
  let matchesStatus := f.statusFilter == "all" || t.status == f.statusFilter
  let matchesPriority := f.priorityFilter == "all" || t.priority == f.priorityFilter
  let matchesAssigned := f.assignedFilter == "all" ||
    (f.assignedFilter == "unassigned" && !strTruthy t.assignedTo) ||
    t.assignedTo == some f.assignedFilter
  matchesSearch && matchesStatus && matchesPriority && matchesAssigned

/-- Function `getFilteredTickets` (TicketsPage.tsx lines 103-138): the visibility step
followed by the filter predicate. -/
def getFilteredTickets (tickets : List Ticket) (userId : Option String)
    (role : Option String) (f : Filters) : List Ticket :=
  (visibleTickets tickets userId role).filter (matchesFilters f)

/-- The `due_date` branch of the sort comparator (TicketsPage.tsx lines
154-160): both dates absent compare equal, an absent date sorts after any
present one, and two present dates compare by their instants ascending. -/
def dueDateCmp (a b : Ticket) : Int :=
  match a.dueDate, b.dueDate with
  | none, none => 0
  | none, some _ => 1
  | some _, none => -1
  | some x, some y => (x : Int) - (y : Int)

instance dueDateLeDec :
    DecidableRel (fun a b : Ticket => dueDateCmp a b ≤ 0) :=
  fun a b => inferInstanceAs (Decidable (dueDateCmp a b ≤ 0))

/-- Computation `sortedTickets` with `sortBy = due_date` (TicketsPage.tsx lines 143-167):
a stable sort of the filtered list by the comparator, modelled as insertion
sort on the relation "compares ≤ 0". -/
def sortByDueDate (l : List Ticket) : List Ticket :=
  List.insertionSort (fun a b => dueDateCmp a b ≤ 0) l

/-- The overdue count of `getTicketCounts` (TicketsPage.tsx lines 170-186):
over the visibility-scoped set, tickets with a `dueDate` set, strictly before
`now`, and status not in `["resolved", "verified", "closed"]`. -/
def overdueCount (tickets : List Ticket) (userId : Option String)
    (role : Option String) (now : Nat) : Nat :=
  ((visibleTickets tickets userId role).filter fun t =>
    (match t.dueDate with
     | none => false
     | some d => decide (d < now)) &&
    !(["resolved", "verified", "closed"].contains t.status)).length

/-! ## Concrete instances used by the theorems below -/

/-- A concrete ticket used to instantiate the theorems. -/
def sampleTicket : Ticket :=
  { id := "t1", title := "Pump failure", description := "Pump 3 is down",
    location := "Plant A", priority := "high", status := "open",
    createdBy := "u1", assignedTo := none, createdAt := 10, updatedAt := 10,
    assignedAt := none, resolvedAt := none, verifiedAt := none,
    verifiedBy := none, dueDate := none }

/-- A past-due open ticket (evaluation time 100). -/
def tOpen : Ticket :=
  { sampleTicket with id := "o1", status := "open", dueDate := some 50 }

/-- A past-due resolved ticket (evaluation time 100). -/
def tResolved : Ticket :=
  { sampleTicket with id := "o2", status := "resolved", dueDate := some 50 }

/-- A past-due in-progress ticket (evaluation time 100). -/
def tInProgress : Ticket :=
  { sampleTicket with id := "o3", status := "in_progress", dueDate := some 50 }

/-- A ticket due 2024-01-01 (encoded 20240101). -/
def tJan : Ticket := { sampleTicket with id := "d1", dueDate := some 20240101 }

/-- A ticket due 2024-03-01 (encoded 20240301). -/
def tMarch : Ticket := { sampleTicket with id := "d2", dueDate := some 20240301 }

/-- A ticket with no due date. -/
def tNoDue : Ticket := { sampleTicket with id := "d3", dueDate := none }

/-! ## Claims -/

/-- C1: evaluation of the code at the failing input. The claim says that on a
failed gateway delete the local collection is unchanged and the error
propagates; instead the inner catch swallows the gateway error, the ticket is
removed from the local collection anyway and the promise fulfills. -/
theorem deleteTicket_swallows_gateway_error :
    deleteTicket [sampleTicket] "t1" (Except.error "network error") =
      ([], Except.ok ()) := by
  rfl

/-- C3: a failed gateway create leaves the collection unchanged (the very
same list, hence unchanged length and contents, with no optimistic record
retained) and the promise rejects with the gateway error, whatever the
notification outcome. -/
theorem createTicket_failure_leaves_collection
    (tickets : List Ticket) (e : String) (notifyOutcome : Except String Unit) :
    (createTicket tickets (Except.error e) notifyOutcome).1 = tickets ∧
    (createTicket tickets (Except.error e) notifyOutcome).1.length = tickets.length ∧
    (createTicket tickets (Except.error e) notifyOutcome).2 = Except.error e :=
  ⟨rfl, rfl, rfl⟩

/-- C4: when the gateway fetch fails, `loadTickets` leaves the ticket
collection unchanged, sets the error state to a non-null message, and the
call fulfills rather than rejecting. -/
theorem loadTickets_failure_is_recoverable (st : LoadState) (e : String) :
    (loadTickets st (Except.error e)).1.tickets = st.tickets ∧
    (loadTickets st (Except.error e)).1.error.isSome = true ∧
    (loadTickets st (Except.error e)).2 = Except.ok () :=
  ⟨rfl, rfl, rfl⟩

/-- C9: when the gateway mutation succeeds but the triggered notification
call fails, `createTicket` and `updateTicket` behave exactly as with a
successful notification: the mutation is retained in the collection and the
operation fulfills with the mutated ticket. -/
theorem notificationFailure_never_undoes_mutation
    (tickets : List Ticket) (t r : Ticket) (ticketId e : String) :
    createTicket tickets (Except.ok t) (Except.error e) =
        (t :: tickets, Except.ok t) ∧
    createTicket tickets (Except.ok t) (Except.error e) =
        createTicket tickets (Except.ok t) (Except.ok ()) ∧
    updateTicket tickets ticketId (Except.ok r) (Except.error e) =
        ((tickets.map fun x => if x.id = ticketId then r else x), Except.ok r) ∧
    updateTicket tickets ticketId (Except.ok r) (Except.error e) =
        updateTicket tickets ticketId (Except.ok r) (Except.ok ()) :=
  ⟨rfl, rfl, rfl, rfl⟩

/-- C10: a successful `updateTicket` leaves every local ticket with a
different id unchanged at its position, and if no local ticket carries the
updated id the whole collection is unchanged (the record is not inserted). -/
theorem updateTicket_frame (tickets : List Ticket) (ticketId : String)
    (r : Ticket) (n : Except String Unit) :
    (∀ i t, tickets.get? i = some t → t.id ≠ ticketId →
      (updateTicket tickets ticketId (Except.ok r) n).1.get? i = some t) ∧
    ((∀ t ∈ tickets, t.id ≠ ticketId) →
      (updateTicket tickets ticketId (Except.ok r) n).1 = tickets) := by
  constructor
  · intro i t hget hne
    show (tickets.map _).get? i = some t
    rw [List.get?_map, hget]
    simp [hne]
  · intro h
    show tickets.map _ = tickets
    conv_rhs => rw [← List.map_id tickets]
    apply List.map_congr_left
    intro t ht
    simp [h t ht]

/-- C10 witness: the frame property of `updateTicket` at a concrete
collection whose single ticket does not carry the updated id. -/
theorem updateTicket_frame_witness :
    (updateTicket [sampleTicket] "t2" (Except.ok sampleTicket)
      (Except.ok ())).1.get? 0 = some sampleTicket ∧
    (updateTicket [sampleTicket] "t2" (Except.ok sampleTicket)
      (Except.ok ())).1 = [sampleTicket] := by
  refine ⟨(updateTicket_frame [sampleTicket] "t2" sampleTicket (Except.ok ())).1
      0 sampleTicket rfl (by decide),
    (updateTicket_frame [sampleTicket] "t2" sampleTicket (Except.ok ())).2 ?_⟩
  intro t ht
  simp only [List.mem_singleton] at ht
  subst ht
  decide

/-- C2: in a session whose role is neither admin nor supervisor, a ticket the
user neither created nor is assigned to is absent from the filtered ticket
list for every choice of filters; and in an admin or supervisor session the
visibility step keeps the full collection. -/
theorem role_scoped_visibility (tickets : List Ticket) (uid : String)
    (role : Option String) (f : Filters) (t : Ticket) :
    (canViewAllTickets role = false → t.createdBy ≠ uid →
      t.assignedTo ≠ some uid →
      t ∉ getFilteredTickets tickets (some uid) role f) ∧
    (canViewAllTickets role = true →
      visibleTickets tickets (some uid) role = tickets) := by
  constructor
  · intro hrole h1 h2 hmem
    have hv : t ∈ visibleTickets tickets (some uid) role :=
      List.mem_of_mem_filter hmem
    rw [visibleTickets, hrole] at hv
    simp only [Bool.false_eq_true, if_false, List.mem_filter, Bool.or_eq_true,
      beq_iff_eq, Option.some.injEq] at hv
    rcases hv.2 with h | h
    · exact h1 h
    · exact h2 h
  · intro hrole
    rw [visibleTickets, hrole]
    simp

/-- C2 witness: a field engineer who neither created nor is assigned the
sample ticket does not see it, and an admin session's visibility step keeps
the collection. -/
theorem role_scoped_visibility_witness :
    sampleTicket ∉ getFilteredTickets [sampleTicket] (some "u2")
      (some "field_engineer") ⟨"", "all", "all", "all"⟩ ∧
    visibleTickets [sampleTicket] (some "u2") (some "admin") = [sampleTicket] :=
  ⟨(role_scoped_visibility [sampleTicket] "u2" (some "field_engineer")
      ⟨"", "all", "all", "all"⟩ sampleTicket).1 (by decide) (by decide) (by decide),
   (role_scoped_visibility [sampleTicket] "u2" (some "admin")
      ⟨"", "all", "all", "all"⟩ sampleTicket).2 (by decide)⟩

/-- C8: a ticket is in `getOverdueTickets` exactly when its `dueDate` is set,
strictly before the evaluation time, and its status is outside {resolved,
verified, closed}; the overdue count of `getTicketCounts` counts the same
predicate over the visibility-scoped set; and among past-due tickets with
statuses open, resolved and in_progress, exactly the open and in_progress
ones are kept. -/
theorem overdue_characterization (tickets : List Ticket) (now : Nat) :
    (∀ t, t ∈ getOverdueTickets tickets now ↔
      (t ∈ tickets ∧ (∃ d, t.dueDate = some d ∧ d < now) ∧
        t.status ≠ "resolved" ∧ t.status ≠ "verified" ∧ t.status ≠ "closed")) ∧
    (∀ userId role, overdueCount tickets userId role now =
      (getOverdueTickets (visibleTickets tickets userId role) now).length) ∧
    getOverdueTickets [tOpen, tResolved, tInProgress] 100 =
      [tOpen, tInProgress] := by
  refine ⟨?_, fun _ _ => rfl, by rfl⟩
  intro t
  rw [getOverdueTickets, List.mem_filter]
  rcases hdue : t.dueDate with _ | d
  · simp [List.contains, hdue]
  · simp [List.contains, hdue]

/-- C8 witness: the characterization applied at the concrete past-due
tickets with statuses open, resolved and in_progress. -/
theorem overdue_characterization_witness :
    tOpen ∈ getOverdueTickets [tOpen, tResolved, tInProgress] 100 ∧
    tResolved ∉ getOverdueTickets [tOpen, tResolved, tInProgress] 100 := by
  constructor
  · exact ((overdue_characterization [tOpen, tResolved, tInProgress] 100).1
      tOpen).mpr ⟨by decide, ⟨50, rfl, by decide⟩, by decide, by decide,
        by decide⟩
  · intro hmem
    have h := ((overdue_characterization [tOpen, tResolved, tInProgress] 100).1
      tResolved).mp hmem
    exact h.2.2.1 rfl

/-- C5: `updateTicket` auto-stamps missing status-transition timestamps. A
requested status of resolved with no caller-supplied `resolvedAt` sends
`resolvedAt = now` to the gateway, so the canonical record's `resolvedAt` is
set and, the clock being monotone (`prior.updatedAt ≤ now`), is ≥ the prior
`updatedAt`; a requested status of assigned likewise stamps `assignedAt`, and
verified stamps `verifiedAt` and sets `verifiedBy` to the acting user. -/
theorem updateTicket_auto_stamps (u : TicketUpdates) (uid : String)
    (now : Nat) (prior : Ticket) (hclock : prior.updatedAt ≤ now) :
    (u.status = some "resolved" → dateFalsy u.resolvedAt →
      (computeDbUpdates u uid now).resolvedAt = some (some now) ∧
      (∃ ts, (applyUpdates prior (computeDbUpdates u uid now) now).resolvedAt
          = some ts ∧ prior.updatedAt ≤ ts)) ∧
    (u.status = some "assigned" → dateFalsy u.assignedAt →
      (computeDbUpdates u uid now).assignedAt = some (some now)) ∧
    (u.status = some "verified" → dateFalsy u.verifiedAt →
      (computeDbUpdates u uid now).verifiedAt = some (some now) ∧
      (computeDbUpdates u uid now).verifiedBy = some uid) := by
  refine ⟨?_, ?_, ?_⟩
  · intro hstatus hfalsy
    have hdb : (computeDbUpdates u uid now).resolvedAt = some (some now) := by
      simp [computeDbUpdates, hstatus, hfalsy]
    exact ⟨hdb, now, by simp [applyUpdates, hdb], hclock⟩
  · intro hstatus hfalsy
    simp [computeDbUpdates, hstatus, hfalsy]
  · intro hstatus hfalsy
    simp [computeDbUpdates, hstatus, hfalsy]

/-- C5 witness: the auto-stamping applied to the concrete updates object
`{status: "resolved"}` at time 20 against the sample ticket. -/
theorem updateTicket_auto_stamps_witness :
    sampleTicket.updatedAt ≤ 20 ∧
    (computeDbUpdates { status := some "resolved" } "u1" 20).resolvedAt =
      some (some 20) :=
  ⟨by decide,
   ((updateTicket_auto_stamps { status := some "resolved" } "u1" 20
      sampleTicket (by decide)).1 rfl (Or.inl rfl)).1⟩

/-- C6 counterexample: the empty string is a non-null assignee id, yet the
updates built by `assignTicket` for it take the falsy branch, so the
resulting record's status is `"open"`, not `"assigned"` — refuting the claim
as stated for every non-null assignee id. -/
theorem assignTicket_emptyId_not_assigned :
    (applyUpdates sampleTicket
      (computeDbUpdates (assignTicketUpdates (some "") 20) "u1" 20) 20).status
      ≠ "assigned" := by
  decide

/-- C6 (amended): for every non-null, non-empty assignee id, a successful
assign yields a record with status assigned, `assignedTo` the assignee and a
non-empty `assignedAt` stamped at call time; a subsequent successful assign
of null restores status open and clears the assignment and `assignedAt`. -/
theorem assignTicket_assign_then_unassign (prior : Ticket) (a uid : String)
    (n1 n2 : Nat) (ha : a ≠ "") :
    ((applyUpdates prior
        (computeDbUpdates (assignTicketUpdates (some a) n1) uid n1) n1).status
        = "assigned" ∧
     (applyUpdates prior
        (computeDbUpdates (assignTicketUpdates (some a) n1) uid n1) n1).assignedTo
        = some a ∧
     (applyUpdates prior
        (computeDbUpdates (assignTicketUpdates (some a) n1) uid n1) n1).assignedAt
        = some n1) ∧
    ((applyUpdates
        (applyUpdates prior
          (computeDbUpdates (assignTicketUpdates (some a) n1) uid n1) n1)
        (computeDbUpdates (assignTicketUpdates none n2) uid n2) n2).status
        = "open" ∧
     (applyUpdates
        (applyUpdates prior
          (computeDbUpdates (assignTicketUpdates (some a) n1) uid n1) n1)
        (computeDbUpdates (assignTicketUpdates none n2) uid n2) n2).assignedTo
        = none ∧
     (applyUpdates
        (applyUpdates prior
          (computeDbUpdates (assignTicketUpdates (some a) n1) uid n1) n1)
        (computeDbUpdates (assignTicketUpdates none n2) uid n2) n2).assignedAt
        = none) := by
  have htruthy : strTruthy (some a) = true := by
    simp [strTruthy, ha]
  constructor
  · refine ⟨?_, ?_, ?_⟩ <;>
      simp [assignTicketUpdates, computeDbUpdates, applyUpdates, htruthy,
        dateFalsy]
  · refine ⟨?_, ?_, ?_⟩ <;>
      simp [assignTicketUpdates, computeDbUpdates, applyUpdates, htruthy,
        dateFalsy, strTruthy]

/-- C6 witness: the amended claim applied at the sample ticket with assignee
id `"eng-1"` at time 20, unassigned again at time 30. -/
theorem assignTicket_assign_then_unassign_witness :
    (applyUpdates sampleTicket
      (computeDbUpdates (assignTicketUpdates (some "eng-1") 20) "u1" 20)
      20).status = "assigned" ∧
    (applyUpdates
      (applyUpdates sampleTicket
        (computeDbUpdates (assignTicketUpdates (some "eng-1") 20) "u1" 20) 20)
      (computeDbUpdates (assignTicketUpdates none 30) "u1" 30) 30).assignedAt
      = none :=
  ⟨((assignTicket_assign_then_unassign sampleTicket "eng-1" "u1" 20 30
      (by decide)).1).1,
   ((assignTicket_assign_then_unassign sampleTicket "eng-1" "u1" 20 30
      (by decide)).2).2.2⟩

/-- The due-date comparator compares ≤ 0 exactly when the second ticket has
no due date, or both have one and the first is not later. -/
theorem dueDateCmp_nonpos_iff (a b : Ticket) :
    dueDateCmp a b ≤ 0 ↔
      (b.dueDate = none ∨
        ∃ x y, a.dueDate = some x ∧ b.dueDate = some y ∧ x ≤ y) := by
  rcases ha : a.dueDate with _ | x <;> rcases hb : b.dueDate with _ | y <;>
    simp [dueDateCmp, ha, hb] <;> omega

/-- The relation "comparator ≤ 0" is total on tickets. -/
theorem dueDateLe_total (a b : Ticket) :
    dueDateCmp a b ≤ 0 ∨ dueDateCmp b a ≤ 0 := by
  rcases ha : a.dueDate with _ | x <;> rcases hb : b.dueDate with _ | y <;>
    simp [dueDateCmp, ha, hb] <;> omega

/-- The relation "comparator ≤ 0" is transitive on tickets. -/
theorem dueDateLe_trans (a b c : Ticket) (hab : dueDateCmp a b ≤ 0)
    (hbc : dueDateCmp b c ≤ 0) : dueDateCmp a c ≤ 0 := by
  rcases ha : a.dueDate with _ | x <;> rcases hb : b.dueDate with _ | y <;>
    rcases hc : c.dueDate with _ | z <;>
    simp_all [dueDateCmp] <;> omega

/-- C7: sorting by due date places every ticket without a due date after
every ticket with one, orders the dated tickets ascending by due date
(soonest first), permutes its input, and sends the concrete due dates
[2024-03-01, none, 2024-01-01] to [2024-01-01, 2024-03-01, none]. -/
theorem dueDate_sort_order (l : List Ticket) :
    List.Pairwise (fun a b : Ticket =>
      (a.dueDate = none → b.dueDate = none) ∧
      ∀ x y, a.dueDate = some x → b.dueDate = some y → x ≤ y)
      (sortByDueDate l) ∧
    (sortByDueDate l).Perm l ∧
    sortByDueDate [tMarch, tNoDue, tJan] = [tJan, tMarch, tNoDue] := by
  refine ⟨?_, List.perm_insertionSort _ l, by rfl⟩
  haveI : IsTotal Ticket (fun a b => dueDateCmp a b ≤ 0) := ⟨dueDateLe_total⟩
  haveI : IsTrans Ticket (fun a b => dueDateCmp a b ≤ 0) :=
    ⟨fun a b c => dueDateLe_trans a b c⟩
  have hs :=
    List.sorted_insertionSort (fun a b : Ticket => dueDateCmp a b ≤ 0) l
  refine hs.imp ?_
  intro a b hab
  rw [dueDateCmp_nonpos_iff] at hab
  constructor
  · intro hanone
    rcases hab with h | ⟨x, y, hax, _, _⟩
    · exact h
    · rw [hanone] at hax
      cases hax
  · intro x y hax hby
    rcases hab with h | ⟨u, v, hau, hbv, hle⟩
    · rw [h] at hby
      cases hby
    · rw [hax] at hau
      rw [hby] at hbv
      cases hau
      cases hbv
      exact hle

/-- C7 witness: the sort applied to the concrete due dates
[2024-03-01, none, 2024-01-01]. -/
theorem dueDate_sort_order_witness :
    sortByDueDate [tMarch, tNoDue, tJan] = [tJan, tMarch, tNoDue] :=
  (dueDate_sort_order [tMarch, tNoDue, tJan]).2.2

end MobileTicketing
